import Mathlib

/-!
Verification of the VentureCapital data-cleaning and success-prediction
utilities (`utils.py`) against their natural-language specification.

Shallow embedding conventions:
* Python strings are `List Char` (`Str`); `str.strip` / `str.replace` /
  `in` become the corresponding list operations.
* Python floats are modelled exactly by `PyVal`: a finite value is an
  exact rational, and the IEEE special values `inf`, `-inf`, `nan` are
  explicit constructors.  The only arithmetic the cleaners perform is
  multiplication by a positive power of ten, which is exact on every
  double that the stated claims mention, so rationals are faithful there.
* Rational arithmetic inside executable definitions goes through the
  kernel-reducible wrappers `qMul`, `qAdd`, `qNeg`, `qDivNat`, `qPowTen`
  (plain `*`, `+`, `-`, `/` on `ℚ` are `@[irreducible]` in this library,
  which would block evaluation of concrete test inputs); the bridge
  lemmas `qMul_eq` … identify them with the ordinary operations.
* `float(s)` is modelled by `pyFloatParse`, following the CPython grammar:
  optional surrounding whitespace, an optional sign, then either a
  case-insensitive `inf`/`infinity`/`nan` spelling or a decimal mantissa
  with an optional integer exponent.  (PEP-515 digit underscores and
  non-ASCII unicode digits are outside the model; no claim depends on
  them.)
* Fallible Python operations return `Option`; a `try/except` becomes a
  `match` on that `Option`.  Every cleaner is a total Lean function,
  which is the formal counterpart of "never raises".
-/

abbrev Str := List Char

/-- `a * b` on `ℚ` through the reducible smart constructor `mkRat`. -/
def qMul (a b : ℚ) : ℚ := mkRat (a.num * b.num) (a.den * b.den)

/-- `a + b` on `ℚ` through the reducible smart constructor `mkRat`. -/
def qAdd (a b : ℚ) : ℚ := mkRat (a.num * b.den + b.num * a.den) (a.den * b.den)

/-- `-a` on `ℚ` through the reducible smart constructor `mkRat`. -/
def qNeg (a : ℚ) : ℚ := mkRat (-a.num) a.den

/-- `a / d` for a natural denominator, through `mkRat`. -/
def qDivNat (a : ℚ) (d : ℕ) : ℚ := mkRat a.num (a.den * d)

/-- `(10 : ℚ) ^ e` for an integer exponent, through `mkRat`. -/
def qPowTen (e : ℤ) : ℚ :=
  if 0 ≤ e then mkRat (10 ^ e.toNat) 1 else mkRat 1 (10 ^ (-e).toNat)

/-- Sum of a list of rationals through `qAdd`. -/
def qSum (l : List ℚ) : ℚ := l.foldr qAdd 0

theorem qMul_eq (a b : ℚ) : qMul a b = a * b := (Rat.mul_eq_mkRat a b).symm

theorem qAdd_eq (a b : ℚ) : qAdd a b = a + b := (Rat.add_def' a b).symm

theorem qNeg_eq (a : ℚ) : qNeg a = -a := by
  rw [qNeg, Rat.mkRat_eq_divInt, ← Rat.neg_divInt, Rat.num_divInt_den]

theorem qDivNat_eq (a : ℚ) (d : ℕ) : qDivNat a d = a / (d : ℚ) := by
  rw [qDivNat, Rat.mkRat_eq_div]
  push_cast
  rw [div_mul_eq_div_div, Rat.num_div_den]

theorem qPowTen_eq (e : ℤ) : qPowTen e = (10 : ℚ) ^ e := by
  rw [qPowTen]
  split
  · rw [Rat.mkRat_one]
    push_cast
    rw [← zpow_natCast, Int.toNat_of_nonneg (by assumption)]
  · rw [Rat.mkRat_eq_div]
    push_cast
    rw [one_div, ← zpow_natCast, ← zpow_neg, Int.toNat_of_nonneg (by omega), Int.neg_neg]

theorem qSum_eq (l : List ℚ) : qSum l = l.sum := by
  induction l with
  | nil => rfl
  | cons a t ih => rw [qSum, List.foldr_cons, qAdd_eq, List.sum_cons, ← ih]; rfl

/-- Whitespace characters stripped by Python `str.strip()` (ASCII range). -/
def isSpace (c : Char) : Bool :=
  c == ' ' || c == '\t' || c == '\n' || c == '\r' || c == '\x0b' || c == '\x0c'

/-- Python `s.strip()`. -/
def stripWS (l : Str) : Str :=
  ((l.dropWhile isSpace).reverse.dropWhile isSpace).reverse

/-- Python `s.replace(c, '')`: removes every occurrence of the character. -/
def removeAll (c : Char) (l : Str) : Str :=
  l.filter (fun x => !(x == c))

/-- Python `s.replace(c, '', 1)`: removes the first occurrence only. -/
def removeFirst (c : Char) : Str → Str
  | [] => []
  | x :: xs => if x = c then xs else x :: removeFirst c xs

/-- Numeric value of a digit string (most significant first). -/
def digitsToNat (l : Str) : ℕ :=
  l.foldl (fun a c => 10 * a + (c.toNat - '0'.toNat)) 0

/-- A Python float value: an exact finite rational, a signed infinity, or NaN. -/
inductive PyVal where
  | num (q : ℚ)
  | inf (pos : Bool)
  | nan
deriving DecidableEq, Repr

/-- Unary minus on a Python float. -/
def pyNeg : PyVal → PyVal
  | .num q => .num (qNeg q)
  | .inf b => .inf (!b)
  | .nan => .nan

/-- Multiplication of a Python float by a positive finite scale factor
(the only multiplication the cleaners perform: `value * multiplier`
with `multiplier` one of 1e3/1e6/1e9/1e12/1.0). -/
def pyScale (v : PyVal) (m : ℚ) : PyVal :=
  match v with
  | .num q => .num (qMul q m)
  | .inf b => .inf b
  | .nan => .nan

/-- `True` for a non-negative Python float (`nan` is not non-negative). -/
def pyNonneg : PyVal → Bool
  | .num q => decide (0 ≤ q)
  | .inf b => b
  | .nan => false

/-- Mantissa of a float literal: `digits`, `digits '.' digits`,
`digits '.'` or `'.' digits` (at least one digit overall). -/
def parseMantissa (l : Str) : Option ℚ :=
  let ip := l.takeWhile (fun c => !(c == '.'))
  let rest := l.dropWhile (fun c => !(c == '.'))
  match rest with
  | [] =>
      if ip ≠ [] ∧ ip.all Char.isDigit then some ((digitsToNat ip : ℕ) : ℚ) else none
  | _ :: fp =>
      if (ip ≠ [] ∨ fp ≠ []) ∧ ip.all Char.isDigit ∧ fp.all Char.isDigit then
        some (qAdd ((digitsToNat ip : ℕ) : ℚ) (qDivNat ((digitsToNat fp : ℕ) : ℚ) (10 ^ fp.length)))
      else none

/-- Exponent of a float literal: optional sign then a nonempty digit run. -/
def parseExpInt (l : Str) : Option ℤ :=
  match l with
  | '-' :: d =>
      if d ≠ [] ∧ d.all Char.isDigit then some (-((digitsToNat d : ℕ) : ℤ)) else none
  | '+' :: d =>
      if d ≠ [] ∧ d.all Char.isDigit then some ((digitsToNat d : ℕ) : ℤ) else none
  | d =>
      if d ≠ [] ∧ d.all Char.isDigit then some ((digitsToNat d : ℕ) : ℤ) else none

/-- Unsigned part of `float(s)`: case-insensitive `inf`/`infinity`/`nan`,
or a mantissa with an optional `e`/`E` exponent. -/
def parseUnsigned (l : Str) : Option PyVal :=
  let low := l.map Char.toLower
  if low = "inf".toList ∨ low = "infinity".toList then some (PyVal.inf true)
  else if low = "nan".toList then some PyVal.nan
  else
    let mant := l.takeWhile (fun c => !(c == 'e' || c == 'E'))
    let rest := l.dropWhile (fun c => !(c == 'e' || c == 'E'))
    match rest with
    | [] => (parseMantissa mant).map PyVal.num
    | _ :: expPart =>
        match parseMantissa mant, parseExpInt expPart with
        | some m, some e => some (PyVal.num (qMul m (qPowTen e)))
        | _, _ => none

/-- Python `float(s)`: strip surrounding whitespace, take an optional
sign, then parse the unsigned body.  `none` models `ValueError`. -/
def pyFloatParse (l : Str) : Option PyVal :=
  match stripWS l with
  | [] => none
  | c :: r =>
      if c = '-' then (parseUnsigned r).map pyNeg
      else if c = '+' then parseUnsigned r
      else parseUnsigned (c :: r)

/-- A Python object as it appears in a pandas cell handed to the cleaners:
a string, a float, an int, or `None`. -/
inductive PyObj where
  | pstr (s : Str)
  | pfloat (v : PyVal)
  | pint (n : ℤ)
  | pynone
deriving DecidableEq, Repr

/-- `pandas astype(str)` on an object cell that is either a string or a
missing value: a missing value (NaN) stringifies to `"nan"`. -/
def astype_str (cell : Option Str) : Str :=
  match cell with
  | some s => s
  | none => "nan".toList

/-- String branch of `clean_currency` (utils.py lines 9-18): strip
whitespace, drop commas, map `'-'`/empty to 0.0, else `float` the rest
with 0.0 on `ValueError`. -/
def clean_currency_str (s : Str) : PyVal :=
  let c := removeAll ',' (stripWS s)
  if c = "-".toList ∨ c = [] then PyVal.num 0
  else
    match pyFloatParse c with
    | some v => v
    | none => PyVal.num 0

/-- `clean_currency` (utils.py lines 4-19): non-strings pass through
unchanged. -/
def clean_currency (x : PyObj) : PyObj :=
  match x with
  | .pstr s => .pfloat (clean_currency_str s)
  | y => y

/-- String branch of `clean_money_string` (utils.py lines 28-47): strip
whitespace, drop `'$'` and commas, pick a multiplier by testing the
letters `B`, `M`, `K`, `T` in that order (substring containment,
first match wins, all occurrences of the matched letter removed), then
`float` the remainder and scale, with 0.0 on `ValueError`.  The integer
multiplier literals are the exact values of the Python float literals
`1e9`, `1e6`, `1e3`, `1e12`. -/
def clean_money_str (s : Str) : PyVal :=
  let t := removeAll ',' (removeAll '$' (stripWS s))
  let p :=
    if t.contains 'B' then ((1000000000 : ℚ), removeAll 'B' t)
    else if t.contains 'M' then ((1000000 : ℚ), removeAll 'M' t)
    else if t.contains 'K' then ((1000 : ℚ), removeAll 'K' t)
    else if t.contains 'T' then ((1000000000000 : ℚ), removeAll 'T' t)
    else ((1 : ℚ), t)
  match pyFloatParse p.2 with
  | some v => pyScale v p.1
  | none => PyVal.num 0

/-- `clean_money_string` (utils.py lines 21-47): non-strings pass through
unchanged. -/
def clean_money_string (x : PyObj) : PyObj :=
  match x with
  | .pstr s => .pfloat (clean_money_str s)
  | y => y

/-- First-match-wins unit detection over an ordered list of
`(letter, scale)` pairs: scale of the first letter contained in the
string (all its occurrences removed), default scale 1. -/
def detect_unit : List (Char × ℚ) → Str → ℚ × Str
  | [], s => (1, s)
  | (c, m) :: rest, s =>
      if s.contains c then (m, removeAll c s) else detect_unit rest s

/-- Modelled from the spec (§4.1): the abbreviated-currency cleaner as the
spec describes it, parameterised by the precedence-ordered unit list, so
that the spec's claimed order `T, B, M, K` can be compared with the
source order `B, M, K, T`. -/
def clean_money_spec (units : List (Char × ℚ)) (x : PyObj) : PyObj :=
  match x with
  | .pstr s =>
      let t := removeAll ',' (removeAll '$' (stripWS s))
      let p := detect_unit units t
      .pfloat
        (match pyFloatParse p.2 with
         | some v => pyScale v p.1
         | none => PyVal.num 0)
  | y => y

example : clean_money_str "$100B".toList = PyVal.num 100000000000 := by decide
example : clean_money_str "$50M".toList = PyVal.num 50000000 := by decide
example : clean_money_str "$180,000".toList = PyVal.num 180000 := by decide
example : clean_currency_str "-5".toList = PyVal.num ((-5 : ℤ) : ℚ) := by decide
example : clean_currency_str " 1,000,000 ".toList = PyVal.num 1000000 := by decide
example : clean_currency_str "-".toList = PyVal.num 0 := by decide
example : clean_currency_str "abc".toList = PyVal.num 0 := by decide
example : clean_money_str "INFBINITY".toList = PyVal.inf true := by decide
example : pyFloatParse "1.5e2".toList = some (PyVal.num 150) := by decide
example : pyFloatParse ".5".toList = some (PyVal.num (mkRat 1 2)) := by decide
example : pyFloatParse "5.".toList = some (PyVal.num 5) := by decide
example : pyFloatParse ".".toList = none := by decide
example : pyFloatParse "1e-2".toList = some (PyVal.num (mkRat 1 100)) := by decide
example : pyFloatParse "-nan".toList = some PyVal.nan := by decide
example : pyFloatParse "  Infinity ".toList = some (PyVal.inf true) := by decide
example : pyFloatParse "nan".toList = some PyVal.nan := by decide
example : clean_currency_str "nan".toList = PyVal.nan := by decide

/-- Index of the first occurrence of `v` in a list of strings
(`none` when absent). -/
def idxOf? (v : Str) : List Str → Option ℕ
  | [] => none
  | c :: cs => if c = v then some 0 else (idxOf? v cs).map (· + 1)

/-- A fitted `sklearn.preprocessing.LabelEncoder`: its `classes_` array,
the sorted distinct values seen by `fit`. -/
structure LabelEncoder where
  classes : List Str
deriving DecidableEq, Repr

/-- `le.transform([v])[0]`: the code of `v` in the fitted vocabulary;
`none` models the `ValueError` sklearn raises on an unseen value.
(On the sorted `classes_` array sklearn returns the searchsorted
position, which for a present value is its unique index.) -/
def LabelEncoder.transform (le : LabelEncoder) (v : Str) : Option ℕ :=
  idxOf? v le.classes

/-- Country encoding in `predict_success` (utils.py lines 253-256):
`try: le_country.transform([country])[0] except: 0`. -/
def encode_country (le : LabelEncoder) (c : Str) : ℕ :=
  match le.transform c with
  | some i => i
  | none => 0

/-- Category encoding in `predict_success` (utils.py lines 258-264):
try the literal value; on failure try `"Other"`; on failure again, 0. -/
def encode_category (le : LabelEncoder) (c : Str) : ℕ :=
  match le.transform c with
  | some i => i
  | none =>
      match le.transform "Other".toList with
      | some j => j
      | none => 0

/-- Modelled from the spec (§4.4): the claimed fallback policy for
encoding any categorical value at inference — try the literal value; if
unseen, try the literal string `"Other"`; if that too is unseen, fall
back to code 0. -/
def spec_fallback_encode (le : LabelEncoder) (c : Str) : ℕ :=
  match le.transform c with
  | some i => i
  | none =>
      match le.transform "Other".toList with
      | some j => j
      | none => 0

/-- The feature row built by `predict_success` (utils.py lines 266-271)
before it is handed to `model.predict_proba` (the random-forest
evaluation itself is outside the embedding; the claims under test
concern only the encoding). -/
def predict_success_features (encoders : LabelEncoder × LabelEncoder)
    (funding rounds : ℚ) (country category : Str) : ℚ × ℚ × ℕ × ℕ :=
  (funding, rounds, encode_country encoders.1 country, encode_category encoders.2 category)

/-- `x.split('|')[0]`: the first pipe-delimited token. -/
def splitPipeHead (s : Str) : Str := s.takeWhile (fun c => !(c == '|'))

/-- The `primary_category` cell computation in `train_success_model`
(utils.py line 223): `df['category_list'].astype(str).apply(lambda x:
x.split('|')[0] if isinstance(x, str) else 'Other')`.  After
`astype(str)` every cell is a string, so the `isinstance(x, str)` test
is `True` on every cell and the `'Other'` branch is unreachable; a
missing cell has already been stringified to `"nan"`. -/
def primary_category_cell (category_list : Option Str) : Str :=
  splitPipeHead (astype_str category_list)

/-- The `Employees` cell cleaning in `load_saas_data` (utils.py line
176): `astype(str)`, drop commas, then
`lambda x: float(str(x).replace('.','',1)) if str(x).replace('.','',1).isdigit() else 0`.
Note the `float` is applied to the dot-stripped string `y`, not to the
original text. -/
def clean_employees_cell (x : Option Str) : PyVal :=
  let s := removeAll ',' (astype_str x)
  let y := removeFirst '.' s
  if y ≠ [] ∧ y.all Char.isDigit then PyVal.num ((digitsToNat y : ℕ) : ℚ)
  else PyVal.num 0

example : primary_category_cell (some "Software|Mobile".toList) = "Software".toList := by decide
example : primary_category_cell none = "nan".toList := by decide
example : clean_employees_cell (some "12.5".toList) = PyVal.num 125 := by decide
example : clean_employees_cell (some "12.5.3".toList) = PyVal.num 0 := by decide
example : clean_employees_cell (some "1,000".toList) = PyVal.num 1000 := by decide
example : clean_employees_cell none = PyVal.num 0 := by decide
example : encode_country ⟨["DE".toList, "Other".toList]⟩ "FR".toList = 0 := by decide
example : spec_fallback_encode ⟨["DE".toList, "Other".toList]⟩ "FR".toList = 1 := by decide

/-- A parsed timestamp as produced by `pd.to_datetime(..., errors =
coerce)`: we carry its day serial number (for subtraction, whose `.days`
is exact whole days on date-resolution data) and its calendar year (for
`.dt.year`); both are determined by the underlying timestamp. -/
structure Date where
  days : ℤ
  year : ℤ
deriving DecidableEq, Repr

/-- One raw row of the primary investments CSV, restricted to the
columns `load_data` reads when deriving its outputs (`city`,
`founded_year`, `region`, … are untouched by the claims and omitted).
Each cell is a string or missing; the three date columns are carried
already in the `pd.to_datetime(..., errors = coerce)` form (`none` =
`NaT`), since no claim concerns date-string parsing itself. -/
structure RawInvRow where
  name : Option Str
  market : Option Str
  status : Option Str
  funding_total_usd : Option Str
  founded_at : Option Date
  last_funding_at : Option Date
deriving DecidableEq, Repr

/-- One row of the table returned by `load_data`. -/
structure CleanInvRow where
  name : Option Str
  market : Str
  status : Str
  funding_total_usd : PyObj
  founded_at : Option Date
  last_funding_at : Option Date
  years_to_exit : Option ℚ
deriving DecidableEq, Repr

/-- Step 5 of `load_data` (utils.py line 80):
`astype(str).str.strip().str.lower()` on a status cell. -/
def normStatus (s : Option Str) : Str :=
  (stripWS (astype_str s)).map Char.toLower

/-- Step 7 of `load_data` (utils.py lines 86-94) on one row: only rows
with normalized status in `{acquired, ipo}` and both dates present get
`(last_funding_at - founded_at).days / 365.0`, and the value is erased
again when `< 0.5` (`.dt.days` is exact whole days on date-resolution
data, and the comparison against the double `0.5` is exact). -/
def years_to_exit_calc (st : Str) (founded last : Option Date) : Option ℚ :=
  if st = "acquired".toList ∨ st = "ipo".toList then
    match last, founded with
    | some l, some f =>
        let y : ℚ := qDivNat ((l.days - f.days : ℤ) : ℚ) 365
        if y < mkRat 1 2 then none else some y
    | _, _ => none
  else none

/-- Row-level semantics of `load_data` (utils.py lines 49-96) on a table
with the standard schema: funding cleaned through `clean_currency` on
the stringified cell (step 2), status lowercased and stripped (step 5),
market stripped (step 6), and `years_to_exit` per step 7.  The pandas
implementation computes the exit column on the `status ∈ {acquired,
ipo}` subset and writes it back by row index, which acts row-by-row —
rows outside the subset keep NaN — so the whole step is a per-row map. -/
def load_data_row (r : RawInvRow) : CleanInvRow :=
  { name := r.name
    market := stripWS (astype_str r.market)
    status := normStatus r.status
    funding_total_usd := clean_currency (.pstr (astype_str r.funding_total_usd))
    founded_at := r.founded_at
    last_funding_at := r.last_funding_at
    years_to_exit := years_to_exit_calc (normStatus r.status) r.founded_at r.last_funding_at }

/-- The table returned by `load_data` on a successfully read table. -/
def load_data_rows (tbl : List RawInvRow) : List CleanInvRow :=
  tbl.map load_data_row

example :
    (load_data_row ⟨some "A".toList, some "Tech".toList, some " Acquired ".toList,
      some "100".toList, some ⟨0, 2010⟩, some ⟨730, 2012⟩⟩).years_to_exit = some 2 := by decide
example :
    (load_data_row ⟨some "A".toList, some "Tech".toList, some "acquired".toList,
      some "100".toList, some ⟨0, 2010⟩, some ⟨90, 2010⟩⟩).years_to_exit = none := by decide
example :
    (load_data_row ⟨some "A".toList, some "Tech".toList, some "operating".toList,
      some "100".toList, some ⟨0, 2010⟩, some ⟨730, 2012⟩⟩).years_to_exit = none := by decide

/-- `status.isin(['acquired', 'ipo'])` on a cleaned status cell. -/
def isExitStatus (s : Str) : Bool :=
  s == "acquired".toList || s == "ipo".toList

/-- The median as pandas computes it (`'median'` aggregation) over the
non-null values: middle element of the sorted list, or the mean of the
two middle elements; `none` on an empty list (all-NaN group). -/
def pdMedian (l : List ℚ) : Option ℚ :=
  let s := List.insertionSort (· ≤ ·) l
  let n := s.length
  if n = 0 then none
  else if n % 2 = 1 then some (s.getD (n / 2) 0)
  else some (qDivNat (qAdd (s.getD (n / 2 - 1) 0) (s.getD (n / 2) 0)) 2)

/-- One row of the cleaned investments table as consumed by
`get_sector_metrics`: `funding_total_usd` is a float cell (`none` =
NaN, skipped by the pandas `sum`; the claims do not exercise `inf`
funding cells, so finite rationals suffice), `years_to_exit` is `none`
where undefined. -/
structure InvRow where
  name : Option Str
  market : Str
  status : Str
  funding_total_usd : Option ℚ
  years_to_exit : Option ℚ
deriving DecidableEq, Repr

/-- The per-sector aggregation of `get_sector_metrics` (utils.py lines
102-107): pandas `count` on `name` counts the non-null names only,
while the `exit_count` lambda counts over every row of the group. -/
structure SectorAgg where
  market : Str
  total_funding_usd : ℚ
  deal_count : ℕ
  exit_count : ℕ
  avg_years_to_exit : Option ℚ
deriving DecidableEq, Repr

/-- A row of the table returned by `get_sector_metrics`, after the
derived `success_rate` and `avg_deal_size` columns are added. -/
structure SectorMetrics where
  market : Str
  total_funding_usd : ℚ
  deal_count : ℕ
  exit_count : ℕ
  avg_years_to_exit : Option ℚ
  success_rate : ℚ
  avg_deal_size : ℚ
deriving DecidableEq, Repr

/-- The aggregation row for market `m` over table `df`. -/
def sectorAgg (df : List InvRow) (m : Str) : SectorAgg :=
  let g := df.filter (fun r => r.market == m)
  { market := m
    total_funding_usd := qSum (g.filterMap (fun r => r.funding_total_usd))
    deal_count := (g.filter (fun r => r.name.isSome)).length
    exit_count := (g.filter (fun r => isExitStatus r.status)).length
    avg_years_to_exit := pdMedian (g.filterMap (fun r => r.years_to_exit)) }

/-- The derived-columns step of `get_sector_metrics` (utils.py lines
110-111). -/
def withRates (a : SectorAgg) : SectorMetrics :=
  { market := a.market
    total_funding_usd := a.total_funding_usd
    deal_count := a.deal_count
    exit_count := a.exit_count
    avg_years_to_exit := a.avg_years_to_exit
    success_rate := qMul (qDivNat ((a.exit_count : ℕ) : ℚ) a.deal_count) 100
    avg_deal_size := qDivNat a.total_funding_usd a.deal_count }

/-- Descending order on total funding, the sort key of
`sort_values('total_funding_usd', ascending=False)`. -/
def fundGE (a b : SectorMetrics) : Prop :=
  b.total_funding_usd ≤ a.total_funding_usd

instance : DecidableRel fundGE :=
  fun a b => inferInstanceAs (Decidable (b.total_funding_usd ≤ a.total_funding_usd))

instance : IsTotal SectorMetrics fundGE :=
  ⟨fun a b => le_total b.total_funding_usd a.total_funding_usd⟩

instance : IsTrans SectorMetrics fundGE :=
  ⟨fun _ _ _ hab hbc => le_trans hbc hab⟩

/-- `get_sector_metrics` (utils.py lines 98-113): group by market,
aggregate, keep the groups with `deal_count > 5`, derive the rate
columns, sort descending on total funding.  (pandas `groupby` lists the
group keys in sorted order; the final funding sort makes the key order
irrelevant to every property stated below, so the keys are taken in
first-appearance order here.) -/
def get_sector_metrics (df : List InvRow) : List SectorMetrics :=
  let keys := (df.map (fun r => r.market)).dedup
  let kept := (keys.map (sectorAgg df)).filter (fun a => 5 < a.deal_count)
  List.insertionSort fundGE (kept.map withRates)

/-- A table row for the C7 counterexample: market `X`, status
`acquired`, with or without a name. -/
def c7row (named : Bool) : InvRow :=
  { name := if named then some "A".toList else none
    market := "X".toList
    status := "acquired".toList
    funding_total_usd := some 0
    years_to_exit := none }

/-- Six named rows and one name-less row, all exited. -/
def c7tbl : List InvRow :=
  [c7row true, c7row true, c7row true, c7row true, c7row true, c7row true, c7row false]

example : ((get_sector_metrics c7tbl).map (fun m => m.success_rate)) = [mkRat 700 6] := by decide
example : ¬ (mkRat 700 6 ≤ 100) := by decide
example : ((get_sector_metrics c7tbl).map (fun m => m.deal_count)) = [6] := by decide

/-- A failure of `pd.read_csv`: the ways a read can go wrong that the
loaders catch with `except`. -/
inductive ReadErr where
  | fileAbsent
  | unreadable
  | wrongFormat
deriving DecidableEq, Repr

/-- A row of the 2022 unicorns CSV after reading: valuation already a
numeric-or-NaN cell, `Date Joined` in parsed form. -/
structure UnicornRow where
  company : Option Str
  lastValuationB : Option ℚ
  dateJoined : Option Date
  investors : Option Str
deriving DecidableEq, Repr

/-- A row of the 2021 reference CSV: company name and founding year. -/
structure U2021Row where
  company : Str
  yearFounded : Option ℤ
deriving DecidableEq, Repr

/-- A row of the table returned by `load_unicorn_data`. -/
structure UnicornOut where
  company : Option Str
  valuation_usd : Option ℚ
  year_joined : Option ℤ
  year_founded : Option ℤ
  years_to_unicorn : Option ℤ
  select_investors : Option Str
deriving DecidableEq, Repr

/-- Successful-read branch of `load_unicorn_data` (utils.py lines
138-162): valuation scaled to USD, year extracted from the join date,
founding year merged from the 2021 file by exact company-name equality
(the dict built from column pairs keeps the last occurrence of a
duplicated name), `Years_to_Unicorn` as the year difference with NaN
propagation, `Investors` copied to `Select Investors`.  When the 2021
read failed or produced an empty table, `Years_to_Unicorn` is NaN
everywhere and no `Year Founded` is attached.  (The schema is taken as
present, matching the shipped data files; the claims on this loader
concern only its read-failure branch.) -/
def process_unicorn (df2022 : List UnicornRow) (read2021 : Except ReadErr (List U2021Row)) :
    List UnicornOut :=
  let df2021 := match read2021 with
    | .ok d => d
    | .error _ => []
  let founded_map := fun (c : Str) =>
    ((df2021.map (fun r => (r.company, r.yearFounded))).reverse.lookup c).join
  df2022.map (fun r =>
    let yearJoined := r.dateJoined.map (fun d => d.year)
    let yearFounded :=
      if df2021.isEmpty then none else r.company.bind founded_map
    { company := r.company
      valuation_usd := r.lastValuationB.map (fun v => qMul v 1000000000)
      year_joined := yearJoined
      year_founded := yearFounded
      years_to_unicorn :=
        if df2021.isEmpty then none
        else match yearJoined, yearFounded with
          | some j, some f => some (j - f)
          | _, _ => none
      select_investors := r.investors })

/-- `load_unicorn_data` (utils.py lines 124-162): the primary read is
wrapped in `try/except Exception: return pd.DataFrame()`; the secondary
(2021) read failure is absorbed into an empty reference table. -/
def load_unicorn_data (read2022 : Except ReadErr (List UnicornRow))
    (read2021 : Except ReadErr (List U2021Row)) : List UnicornOut :=
  match read2022 with
  | .error _ => []
  | .ok df => process_unicorn df read2021

/-- A row of the SaaS CSV after reading. -/
structure SaasRow where
  company : Option Str
  totalFunding : Option Str
  arr : Option Str
  valuation : Option Str
  employees : Option Str
deriving DecidableEq, Repr

/-- A row of the table returned by `load_saas_data`. -/
structure SaasOut where
  company : Option Str
  totalFunding_usd : PyVal
  arr_usd : PyVal
  valuation_usd : PyVal
  employees : PyVal
deriving DecidableEq, Repr

/-- A money cell put through `clean_money_string` by `.apply`: a string
cell is cleaned, a missing cell is the float NaN and passes through the
non-string branch unchanged. -/
def clean_money_cell (c : Option Str) : PyVal :=
  match c with
  | some s => clean_money_str s
  | none => PyVal.nan

/-- Successful-read branch of `load_saas_data` (utils.py lines 170-178):
USD columns from the abbreviated-currency cleaner, `Employees` through
the digit-check lambda. -/
def process_saas (df : List SaasRow) : List SaasOut :=
  df.map (fun r =>
    { company := r.company
      totalFunding_usd := clean_money_cell r.totalFunding
      arr_usd := clean_money_cell r.arr
      valuation_usd := clean_money_cell r.valuation
      employees := clean_employees_cell r.employees })

/-- `load_saas_data` (utils.py lines 164-178). -/
def load_saas_data (read : Except ReadErr (List SaasRow)) : List SaasOut :=
  match read with
  | .error _ => []
  | .ok df => process_saas df

/-- A row of the investor directory, passed through as-is. -/
structure InvestorRow where
  name : Option Str
  title : Option Str
  sizeRange : Option Str
  sectors : Option Str
  noteInvestments : Option Str
  location : Option Str
deriving DecidableEq, Repr

/-- `load_investor_data` (utils.py lines 180-188): try the UTF-8 read,
fall back to the legacy-encoding read, else return an empty table; a
successful read is returned untouched. -/
def load_investor_data (readUtf8 readLatin : Except ReadErr (List InvestorRow)) :
    List InvestorRow :=
  match readUtf8 with
  | .ok df => df
  | .error _ =>
      match readLatin with
      | .ok df => df
      | .error _ => []

/-- Strict lexicographic order on strings (character code order), the
order `np.unique` sorts `classes_` by. -/
def strLtB : Str → Str → Bool
  | [], [] => false
  | [], _ :: _ => true
  | _ :: _, [] => false
  | a :: as, b :: bs => if a < b then true else if a = b then strLtB as bs else false

/-- Reflexive closure of `strLtB`. -/
def strLeB (a b : Str) : Bool := strLtB a b || a == b

/-- `LabelEncoder.fit` on a column of values: `classes_` is the sorted
list of distinct values. -/
def LabelEncoder.fit (vals : List Str) : LabelEncoder :=
  ⟨List.insertionSort (fun a b => strLeB a b = true) vals.dedup⟩

/-- Number of occurrences of a string in a column. -/
def countOf (l : List Str) (c : Str) : ℕ :=
  (l.filter (fun x => x == c)).length

/-- A row of the classifier training CSV. -/
structure TrainRow where
  status : Option Str
  funding_total_usd : Option Str
  funding_rounds : Option Str
  country_code : Option Str
  category_list : Option Str
deriving DecidableEq, Repr

/-- `pd.to_numeric(col, errors = coerce).fillna(1)` on a cell:
unparseable text and missing cells coerce to NaN and are then filled
with 1; a parsed NaN is likewise filled. -/
def to_numeric_fillna1 (c : Option Str) : PyVal :=
  match c with
  | none => PyVal.num 1
  | some s =>
      match pyFloatParse s with
      | some PyVal.nan => PyVal.num 1
      | some v => v
      | none => PyVal.num 1

/-- The engineered feature row of `train_success_model` before the
dropna/encoding steps. -/
structure FeatRow where
  is_success : ℕ
  funding : PyVal
  rounds : PyVal
  country : Option Str
  category : Str
deriving DecidableEq, Repr

/-- The fitted random-forest artifact: the fixed hyperparameters from
utils.py line 244 and the design matrix/labels handed to `fit` (the
tree construction itself is outside the embedding; no claim depends on
it). -/
structure RFModel where
  n_estimators : ℕ
  max_depth : ℕ
  random_state : ℕ
  X : List (PyVal × PyVal × ℕ × ℕ)
  y : List ℕ
deriving DecidableEq, Repr

/-- Successful-read branch of `train_success_model` (utils.py lines
206-247): filter to the four valid statuses, label exits, clean funding
(`astype(str)` then `clean_currency`), coerce rounds with default 1,
extract the primary category, drop rows with a null in the feature set
(funding NaN, rounds NaN, or missing country; `primary_category` and
`is_success` are never null), fit the country encoder, collapse
categories outside the top 50 by frequency into `Other`, fit the
category encoder, and assemble the design matrix. -/
def train_success_model_fit (df : List TrainRow) :
    RFModel × (LabelEncoder × LabelEncoder) :=
  let valid := ["operating".toList, "acquired".toList, "closed".toList, "ipo".toList]
  let df1 := df.filter (fun r =>
    match r.status with
    | some s => decide (s ∈ valid)
    | none => false)
  let feats := df1.map (fun r =>
    { is_success :=
        match r.status with
        | some s => if s = "acquired".toList ∨ s = "ipo".toList then 1 else 0
        | none => 0
      funding := clean_currency_str (astype_str r.funding_total_usd)
      rounds := to_numeric_fillna1 r.funding_rounds
      country := r.country_code
      category := primary_category_cell r.category_list : FeatRow })
  let clean := feats.filter (fun f =>
    decide (¬ f.funding = PyVal.nan) && decide (¬ f.rounds = PyVal.nan) && f.country.isSome)
  let le_country := LabelEncoder.fit (clean.map (fun f => astype_str f.country))
  let cats := clean.map (fun f => f.category)
  let top_cats :=
    (List.insertionSort (fun a b => countOf cats b ≤ countOf cats a) cats.dedup).take 50
  let collapse := fun (c : Str) => if c ∈ top_cats then c else "Other".toList
  let le_category := LabelEncoder.fit (clean.map (fun f => collapse f.category))
  let X := clean.map (fun f =>
    (f.funding, f.rounds,
      (le_country.transform (astype_str f.country)).getD 0,
      (le_category.transform (collapse f.category)).getD 0))
  let y := clean.map (fun f => f.is_success)
  (⟨50, 10, 42, X, y⟩, (le_country, le_category))

/-- `train_success_model` (utils.py lines 196-247): a read failure is
caught and reported as the absent pair `(None, None)`. -/
def train_success_model (read : Except ReadErr (List TrainRow)) :
    Option RFModel × Option (LabelEncoder × LabelEncoder) :=
  match read with
  | .error _ => (none, none)
  | .ok df =>
      let r := train_success_model_fit df
      (some r.1, some (r.2.1, r.2.2))

/-- Which columns a successfully read investments table has. -/
structure Cols where
  funding_total_usd : Bool
  founded_at : Bool
  first_funding_at : Bool
  last_funding_at : Bool
  founded_year : Bool
  status : Bool
  market : Bool
deriving DecidableEq, Repr

/-- Column-access behaviour of `load_data` (utils.py lines 58-96) as a
function of the schema of a successfully read table.  Steps 2-6 guard
every column access with an `in df.columns` test and so can raise no
`KeyError`; step 7 accesses `status` (line 88, `df[df['status']
.isin(...)]`), then `last_funding_at` and `founded_at` (line 90, the
`mask`) unconditionally, in that evaluation order.  `Except.error`
models the uncaught `KeyError` propagating to the caller. -/
def load_data_cols (c : Cols) : Except Str Unit :=
  if !c.status then .error "KeyError: status".toList
  else if !c.last_funding_at then .error "KeyError: last_funding_at".toList
  else if !c.founded_at then .error "KeyError: founded_at".toList
  else .ok ()

example :
    load_data_cols ⟨true, false, true, true, true, true, true⟩ =
      .error "KeyError: founded_at".toList := rfl
example : load_data_cols ⟨false, true, true, true, true, true, true⟩ = .ok () := rfl
example : (train_success_model (.error ReadErr.fileAbsent)) = (none, none) := rfl

/-! ### Helper lemmas -/

theorem idxOf?_lt_length {v : Str} : ∀ {l : List Str} {i : ℕ},
    idxOf? v l = some i → i < l.length := by
  intro l
  induction l with
  | nil => intro i h; simp [idxOf?] at h
  | cons c cs ih =>
      intro i h
      by_cases hc : c = v
      · simp [idxOf?, hc] at h
        simp only [List.length_cons]
        omega
      · simp only [idxOf?, if_neg hc, Option.map_eq_some'] at h
        obtain ⟨j, hj, rfl⟩ := h
        have := ih hj
        simp only [List.length_cons]
        omega

theorem mem_of_mem_stripWS {l : Str} {c : Char} (h : c ∈ stripWS l) : c ∈ l := by
  unfold stripWS at h
  rw [List.mem_reverse] at h
  have h2 := (List.dropWhile_sublist isSpace).subset h
  rw [List.mem_reverse] at h2
  exact (List.dropWhile_sublist isSpace).subset h2

theorem mem_of_mem_removeAll {d : Char} {l : Str} {c : Char}
    (h : c ∈ removeAll d l) : c ∈ l :=
  (List.mem_filter.mp h).1

theorem parseMantissa_nonneg {l : Str} {q : ℚ} (h : parseMantissa l = some q) : 0 ≤ q := by
  simp only [parseMantissa] at h
  split at h
  · split at h
    · injection h with h
      subst h
      exact Nat.cast_nonneg _
    · exact absurd h (by simp)
  · split at h
    · injection h with h
      subst h
      rw [qAdd_eq, qDivNat_eq]
      positivity
    · exact absurd h (by simp)

theorem parseUnsigned_nonneg {l : Str} {v : PyVal} (h : parseUnsigned l = some v) :
    v = PyVal.nan ∨ pyNonneg v = true := by
  simp only [parseUnsigned] at h
  split at h
  · injection h with h
    subst h
    right
    rfl
  · split at h
    · injection h with h
      subst h
      left
      rfl
    · split at h
      · rw [Option.map_eq_some'] at h
        obtain ⟨m, hm, rfl⟩ := h
        right
        simpa [pyNonneg] using parseMantissa_nonneg hm
      · split at h
        · injection h with h
          subst h
          right
          rename_i m e hm he
          have h0 : (0 : ℚ) ≤ qMul m (qPowTen e) := by
            rw [qMul_eq, qPowTen_eq]
            exact mul_nonneg (parseMantissa_nonneg hm) (zpow_nonneg (by norm_num) e)
          simpa [pyNonneg] using h0
        · exact absurd h (by simp)

theorem pyFloatParse_nonneg {l : Str} {v : PyVal} (hm : '-' ∉ l)
    (h : pyFloatParse l = some v) : v = PyVal.nan ∨ pyNonneg v = true := by
  unfold pyFloatParse at h
  split at h
  · exact absurd h (by simp)
  · rename_i c r hst
    have hcl : c ∈ l := mem_of_mem_stripWS (hst ▸ List.mem_cons_self c r)
    by_cases h1 : c = '-'
    · exact absurd (h1 ▸ hcl) hm
    · rw [if_neg h1] at h
      by_cases h2 : c = '+'
      · rw [if_pos h2] at h
        exact parseUnsigned_nonneg h
      · rw [if_neg h2] at h
        exact parseUnsigned_nonneg h

/-! ### Claim theorems -/

/-- C1 (counterexample): the claimed fallback policy — try the literal
value, then `"Other"`, then code 0 — does not govern the country
encoder.  With the fitted country vocabulary `["DE", "Other"]` and the
unseen country `"FR"`, the code falls back directly to 0, while the
spec's policy would produce the code of `"Other"`, namely 1. -/
theorem C1_counterexample :
    encode_country ⟨["DE".toList, "Other".toList]⟩ "FR".toList = 0
    ∧ spec_fallback_encode ⟨["DE".toList, "Other".toList]⟩ "FR".toList = 1
    ∧ (0 : ℕ) ≠ 1 := by
  refine ⟨by decide, by decide, by decide⟩

/-- C1 (amended): encoding at inference never raises (both encoders are
total); the category encoder follows the fallback policy of the spec —
literal value, then `"Other"`, then code 0 — while the country encoder
falls back directly to code 0 on an unseen value, which is a valid code
in the fitted range 0..V-1 whenever the fitted country vocabulary is
nonempty. -/
theorem C1_encoding_fallback (lec lecat : LabelEncoder) (country category : Str)
    (hV : 0 < lec.classes.length) :
    encode_category lecat category = spec_fallback_encode lecat category
    ∧ encode_country lec country < lec.classes.length
    ∧ (lec.transform country = none → encode_country lec country = 0) := by
  refine ⟨rfl, ?_, ?_⟩
  · unfold encode_country
    cases h : lec.transform country with
    | none => exact hV
    | some i => exact idxOf?_lt_length h
  · intro h
    unfold encode_country
    rw [h]

/-- C1 (witness): the amended statement at the concrete fitted
vocabulary `["DE", "Other"]` and the unseen country `"FR"`. -/
theorem C1_encoding_fallback_witness :
    encode_country ⟨["DE".toList, "Other".toList]⟩ "FR".toList = 0
    ∧ encode_country ⟨["DE".toList, "Other".toList]⟩ "FR".toList < 2 :=
  ⟨(C1_encoding_fallback ⟨["DE".toList, "Other".toList]⟩ ⟨["Other".toList]⟩
      "FR".toList "X".toList (by decide)).2.2 (by decide),
   (C1_encoding_fallback ⟨["DE".toList, "Other".toList]⟩ ⟨["Other".toList]⟩
      "FR".toList "X".toList (by decide)).2.1⟩

/-- C2 (counterexample): the claimed first-match precedence `T` before
`B` is not the code's order.  The code tests `B` first: on the input
`"INFBINITY"` it strips the `B` and obtains `float("INFINITY") = inf`,
scaled to `inf`, while the spec's `T`-first order strips the `T`,
fails to parse `"INFBINIY"`, and yields `0.0`. -/
theorem C2_counterexample :
    clean_money_string (.pstr "INFBINITY".toList) = .pfloat (PyVal.inf true)
    ∧ clean_money_spec
        [('T', 1000000000000), ('B', 1000000000), ('M', 1000000), ('K', 1000)]
        (.pstr "INFBINITY".toList) = .pfloat (PyVal.num 0)
    ∧ PyVal.inf true ≠ PyVal.num 0 := by
  refine ⟨by decide, by decide, by decide⟩

/-- C2 (amended): `clean_money_string` detects at most one unit letter
among `{B, M, K, T}` with first-match-wins precedence `B` before `M`,
`M` before `K`, `K` before `T` (scales 1e9, 1e6, 1e3, 1e12), removes
every occurrence of the matched letter, parses the remaining text and
scales, with default scale 1 when no letter matches; in particular
`clean_abbreviated_currency("$100B") = 1.0e11` and
`clean_abbreviated_currency("$50M") = 5.0e7`. -/
theorem C2_first_match_order :
    (∀ x, clean_money_string x =
      clean_money_spec
        [('B', 1000000000), ('M', 1000000), ('K', 1000), ('T', 1000000000000)] x)
    ∧ clean_money_string (.pstr "$100B".toList) = .pfloat (PyVal.num 100000000000)
    ∧ clean_money_string (.pstr "$50M".toList) = .pfloat (PyVal.num 50000000) := by
  refine ⟨fun x => ?_, by decide, by decide⟩
  cases x <;> rfl

/-- C4: the code's primary-category computation at a missing
`category_list` cell.  `astype(str)` stringifies NaN to `"nan"` before
the `isinstance(x, str)` test, so the `'Other'` fallback branch is
unreachable and a missing cell yields the category `"nan"`, not
`"Other"`; on present string cells the first pipe-delimited token is
returned as claimed. -/
theorem C4_code_eval :
    primary_category_cell none = "nan".toList
    ∧ primary_category_cell none ≠ "Other".toList
    ∧ primary_category_cell (some "Software|Mobile".toList) = "Software".toList := by
  refine ⟨by decide, by decide, by decide⟩

/-- C5: the code's employee-count cleaning at the decimal input
`"12.5"`.  The guard accepts any string whose first dot removed leaves
only digits, but `float` is then applied to that dot-stripped string,
so `"12.5"` yields `125.0` instead of the parsed value `12.5`; the
malformed `"12.5.3"` yields 0 and the integer `"1,000"` yields 1000 as
claimed. -/
theorem C5_code_eval :
    clean_employees_cell (some "12.5".toList) = PyVal.num 125
    ∧ PyVal.num 125 ≠ PyVal.num (mkRat 25 2)
    ∧ clean_employees_cell (some "12.5.3".toList) = PyVal.num 0
    ∧ clean_employees_cell (some "1,000".toList) = PyVal.num 1000 := by
  refine ⟨by decide, by decide, by decide, by decide⟩

/-- C8: on any failure of the wrapped `pd.read_csv`, the optional
loaders return an empty table — `load_unicorn_data` regardless of the
outcome of its secondary 2021 read, `load_investor_data` when both
encoding attempts fail — and `train_success_model` returns the absent
pair `(None, None)`; all four functions are total, so nothing
propagates to the caller. -/
theorem C8_read_failure_recovery (e1 e2 e3 e4 e5 : ReadErr)
    (r2021 : Except ReadErr (List U2021Row)) :
    load_unicorn_data (.error e1) r2021 = []
    ∧ load_saas_data (.error e2) = []
    ∧ load_investor_data (.error e3) (.error e4) = []
    ∧ train_success_model (.error e5) = (none, none) :=
  ⟨rfl, rfl, rfl, rfl⟩

/-- C9: both scalar cleaners return every non-string input (floats,
ints, `None`) unchanged, are total on strings (the embedding of "never
raises"), and are idempotent: a string input is mapped to a float,
which the second application passes through unchanged. -/
theorem C9_cleaners_idempotent (x : PyObj) (v : PyVal) (n : ℤ) :
    clean_currency (.pfloat v) = .pfloat v
    ∧ clean_currency (.pint n) = .pint n
    ∧ clean_currency .pynone = .pynone
    ∧ clean_money_string (.pfloat v) = .pfloat v
    ∧ clean_money_string (.pint n) = .pint n
    ∧ clean_money_string .pynone = .pynone
    ∧ clean_currency (clean_currency x) = clean_currency x
    ∧ clean_money_string (clean_money_string x) = clean_money_string x := by
  refine ⟨rfl, rfl, rfl, rfl, rfl, rfl, ?_, ?_⟩ <;> cases x <;> rfl

/-- C10 (counterexample): it is not only the `status` column whose
absence makes `load_data` raise — with `status` present but
`founded_at` absent, the unguarded access in the years-to-exit mask
raises a `KeyError` as well, refuting "every other column use is
guarded by a presence check". -/
theorem C10_counterexample :
    (⟨true, false, true, true, true, true, true⟩ : Cols).status = true
    ∧ load_data_cols ⟨true, false, true, true, true, true, true⟩ ≠ .ok () :=
  ⟨rfl, fun h => by simp [load_data_cols] at h⟩

/-- C10 (amended): `load_data` is partial on its input schema — the
years-to-exit derivation accesses `status`, `last_funding_at` and
`founded_at` unconditionally while every other column use is guarded by
a presence check, so on a successfully read table `load_data` raises a
`KeyError` exactly when one of those three columns is missing, and with
all three present no column access can raise. -/
theorem C10_schema_partiality (c : Cols) :
    load_data_cols c = .ok () ↔
      (c.status = true ∧ c.last_funding_at = true ∧ c.founded_at = true) := by
  obtain ⟨cf, cfa, cff, clf, cfy, cst, cmk⟩ := c
  cases cst <;> cases clf <;> cases cfa <;> simp [load_data_cols]

/-- C3: in every table returned by `load_data`, `years_to_exit` is
defined (non-null) only on rows whose normalized status is `acquired`
or `ipo` with both `founded_at` and `last_funding_at` known and a value
of at least half a year; every row with any other status has it
undefined. -/
theorem C3_years_to_exit_invariant (tbl : List RawInvRow) (row : CleanInvRow)
    (hmem : row ∈ load_data_rows tbl) :
    (∀ y, row.years_to_exit = some y →
      (row.status = "acquired".toList ∨ row.status = "ipo".toList)
      ∧ row.founded_at.isSome = true ∧ row.last_funding_at.isSome = true
      ∧ mkRat 1 2 ≤ y)
    ∧ (¬ (row.status = "acquired".toList ∨ row.status = "ipo".toList) →
        row.years_to_exit = none) := by
  simp only [load_data_rows] at hmem
  obtain ⟨r, -, rfl⟩ := List.mem_map.mp hmem
  constructor
  · intro y hy
    simp only [load_data_row] at hy ⊢
    unfold years_to_exit_calc at hy
    split at hy
    · rename_i hst
      split at hy
      · rename_i l f heq1 heq2
        refine ⟨hst, ?_, ?_, ?_⟩
        · rw [heq2]
          rfl
        · rw [heq1]
          rfl
        · simp only [] at hy
          split at hy
          · exact absurd hy (by simp)
          · injection hy with hy
            subst hy
            exact le_of_not_lt (by assumption)
      · exact absurd hy (by simp)
    · exact absurd hy (by simp)
  · intro hn
    simp only [load_data_row] at hn ⊢
    unfold years_to_exit_calc
    rw [if_neg hn]

/-- A sample exited row for the C3 witness. -/
def c3row : RawInvRow :=
  ⟨some "A".toList, some "Tech".toList, some "acquired".toList,
   some "100".toList, some ⟨0, 2010⟩, some ⟨730, 2012⟩⟩

/-- C3 (witness): the invariant applied to the singleton table holding
an acquired company with two years between founding and last funding. -/
theorem C3_years_to_exit_invariant_witness :
    (load_data_row c3row).status = "acquired".toList
    ∨ (load_data_row c3row).status = "ipo".toList :=
  ((C3_years_to_exit_invariant [c3row] (load_data_row c3row)
      (by simp [load_data_rows])).1 2 (by decide)).1

/-- C6 (counterexample): the plain-currency cleaner is not non-negative
on every input string — `clean_currency("-5")` is the negative float
`-5.0`, and `clean_currency("nan")` is NaN. -/
theorem C6_counterexample :
    clean_currency (.pstr "-5".toList) = .pfloat (PyVal.num ((-5 : ℤ) : ℚ))
    ∧ ¬ ((0 : ℚ) ≤ ((-5 : ℤ) : ℚ))
    ∧ clean_currency (.pstr "nan".toList) = .pfloat PyVal.nan := by
  refine ⟨by decide, by decide, by decide⟩

/-- C6 (amended): on every string the plain-currency cleaner returns a
float, returning `0.0` whenever the comma-stripped text fails to parse
(which also covers the `'-'`/empty placeholders); the result is
non-negative for every input string containing no minus sign, except
that a string spelling NaN yields NaN. -/
theorem C6_plain_currency (s : Str) :
    clean_currency (.pstr s) = .pfloat (clean_currency_str s)
    ∧ (pyFloatParse (removeAll ',' (stripWS s)) = none → clean_currency_str s = PyVal.num 0)
    ∧ ('-' ∉ s → clean_currency_str s = PyVal.nan ∨ pyNonneg (clean_currency_str s) = true) := by
  refine ⟨rfl, ?_, ?_⟩
  · intro hp
    simp only [clean_currency_str]
    split
    · rfl
    · rw [hp]
  · intro hms
    simp only [clean_currency_str]
    split
    · right
      decide
    · cases hp : pyFloatParse (removeAll ',' (stripWS s)) with
      | none =>
          right
          decide
      | some v =>
          refine pyFloatParse_nonneg ?_ hp
          intro hc
          exact hms (mem_of_mem_stripWS (mem_of_mem_removeAll hc))

/-- C6 (witness): the amended statement evaluated at the string `"5"`. -/
theorem C6_plain_currency_witness :
    clean_currency_str "5".toList = PyVal.nan
    ∨ pyNonneg (clean_currency_str "5".toList) = true :=
  (C6_plain_currency "5".toList).2.2 (by decide)

/-- C7 (counterexample): `success_rate` can exceed 100 — `deal_count`
counts only rows with a non-null name while `exit_count` counts every
row of the group, so six named exited rows plus one name-less exited
row give an included sector (deal count 6 > 5) with success rate
700/6 > 100. -/
theorem C7_counterexample :
    ((get_sector_metrics c7tbl).map (fun m => m.deal_count)) = [6]
    ∧ ((get_sector_metrics c7tbl).map (fun m => m.success_rate)) = [mkRat 700 6]
    ∧ ¬ (mkRat 700 6 ≤ 100) := by
  refine ⟨by decide, by decide, by decide⟩

/-- C7 (amended): for every input table, every row of
`get_sector_metrics` has deal count strictly above 5,
`success_rate = exit_count/deal_count × 100`,
`avg_deal_size = total_funding/deal_count` and a non-negative success
rate, and the result is sorted descending on total funding; the upper
bound `success_rate ≤ 100` additionally holds provided every input row
carries a non-null name (so that the name count equals the group
size). -/
theorem C7_sector_metrics (df : List InvRow) :
    List.Sorted fundGE (get_sector_metrics df)
    ∧ ∀ m ∈ get_sector_metrics df,
        5 < m.deal_count
        ∧ m.success_rate = ((m.exit_count : ℕ) : ℚ) / ((m.deal_count : ℕ) : ℚ) * 100
        ∧ m.avg_deal_size = m.total_funding_usd / ((m.deal_count : ℕ) : ℚ)
        ∧ 0 ≤ m.success_rate
        ∧ ((∀ r ∈ df, r.name.isSome = true) → m.success_rate ≤ 100) := by
  constructor
  · exact List.sorted_insertionSort fundGE _
  · intro m hm
    have hm2 : m ∈ ((((df.map (fun r => r.market)).dedup).map (sectorAgg df)).filter
        (fun a => 5 < a.deal_count)).map withRates := by
      simpa [get_sector_metrics, List.mem_insertionSort] using hm
    obtain ⟨a, ha, rfl⟩ := List.mem_map.mp hm2
    rw [List.mem_filter] at ha
    obtain ⟨hamem, hcnt⟩ := ha
    have hcnt5 : 5 < a.deal_count := of_decide_eq_true hcnt
    obtain ⟨k, -, rfl⟩ := List.mem_map.mp hamem
    have hd0 : (0 : ℚ) < (((sectorAgg df k).deal_count : ℕ) : ℚ) := by
      have : 0 < (sectorAgg df k).deal_count := by omega
      exact_mod_cast this
    have hrate : (withRates (sectorAgg df k)).success_rate =
        (((sectorAgg df k).exit_count : ℕ) : ℚ) / (((sectorAgg df k).deal_count : ℕ) : ℚ) * 100 := by
      show qMul (qDivNat (((sectorAgg df k).exit_count : ℕ) : ℚ) (sectorAgg df k).deal_count) 100 = _
      rw [qMul_eq, qDivNat_eq]
    refine ⟨hcnt5, hrate, qDivNat_eq _ _, ?_, ?_⟩
    · rw [hrate]
      positivity
    · intro h
      have hgall : ∀ rr ∈ df.filter (fun r => r.market == k), rr.name.isSome = true :=
        fun rr hrr => h rr (List.mem_filter.mp hrr).1
      have hed : (sectorAgg df k).exit_count ≤ (sectorAgg df k).deal_count := by
        show ((df.filter (fun r => r.market == k)).filter
              (fun r => isExitStatus r.status)).length ≤
            ((df.filter (fun r => r.market == k)).filter (fun r => r.name.isSome)).length
        rw [List.filter_eq_self.mpr hgall]
        exact List.length_filter_le _ _
      rw [hrate]
      have h1 : (((sectorAgg df k).exit_count : ℕ) : ℚ) /
          (((sectorAgg df k).deal_count : ℕ) : ℚ) ≤ 1 :=
        (div_le_one hd0).mpr (by exact_mod_cast hed)
      calc (((sectorAgg df k).exit_count : ℕ) : ℚ) /
            (((sectorAgg df k).deal_count : ℕ) : ℚ) * 100 ≤ 1 * 100 :=
              mul_le_mul_of_nonneg_right h1 (by norm_num)
      _ = 100 := one_mul 100

/-- C7 (witness): the amended statement on the counterexample table (a
nameless row present: the unconditional conjuncts still apply) and, for
the name-proviso bound, on a table of six named exited rows. -/
theorem C7_sector_metrics_witness :
    List.Sorted fundGE (get_sector_metrics c7tbl)
    ∧ 5 < (withRates (sectorAgg c7tbl "X".toList)).deal_count
    ∧ 0 ≤ (withRates (sectorAgg c7tbl "X".toList)).success_rate
    ∧ (withRates (sectorAgg (List.replicate 6 (c7row true)) "X".toList)).success_rate ≤ 100 :=
  ⟨(C7_sector_metrics c7tbl).1,
   ((C7_sector_metrics c7tbl).2 _ (by decide)).1,
   ((C7_sector_metrics c7tbl).2 _ (by decide)).2.2.2.1,
   (((C7_sector_metrics (List.replicate 6 (c7row true))).2 _ (by decide)).2.2.2.2 (by decide))⟩

/-- C8 (witness): the recovery contract at concrete read failures. -/
theorem C8_read_failure_recovery_witness :
    load_saas_data (.error ReadErr.fileAbsent) = []
    ∧ train_success_model (.error ReadErr.wrongFormat) = (none, none) :=
  ⟨(C8_read_failure_recovery ReadErr.fileAbsent ReadErr.fileAbsent ReadErr.fileAbsent
      ReadErr.fileAbsent ReadErr.wrongFormat (.error ReadErr.fileAbsent)).2.1,
   (C8_read_failure_recovery ReadErr.fileAbsent ReadErr.fileAbsent ReadErr.fileAbsent
      ReadErr.fileAbsent ReadErr.wrongFormat (.error ReadErr.fileAbsent)).2.2.2⟩

/-- C9 (witness): idempotence at the concrete string `"7"`. -/
theorem C9_cleaners_idempotent_witness :
    clean_currency (clean_currency (.pstr "7".toList)) = clean_currency (.pstr "7".toList) :=
  (C9_cleaners_idempotent (.pstr "7".toList) PyVal.nan 0).2.2.2.2.2.2.1

/-- C10 (witness): with `status`, `last_funding_at` and `founded_at` all
present, `load_data` raises no `KeyError`. -/
theorem C10_schema_partiality_witness :
    load_data_cols ⟨true, true, true, true, true, true, true⟩ = .ok () :=
  (C10_schema_partiality ⟨true, true, true, true, true, true, true⟩).mpr ⟨rfl, rfl, rfl⟩
